import Mathlib

set_option maxRecDepth 4000

/-!
Shallow embedding of `kazoo/client.py` (the KazooClient connection-state
machine, callback dispatch and operation facade), together with theorems
settling the specification claims about it.

Modelling conventions:
* The mutable fields of a `KazooClient` instance (`_handle`, `_live`,
  `_stopped`, `state`, `state_listeners`, `_watcher`, `_provided_client_id`)
  become a `Client` record; every method that mutates the instance becomes a
  function `Client → ... → Client × List Effect`, the `Effect` list recording
  the observable side effects in program order (transport closes, transport
  opens, listener invocations, default-watcher invocations).
* The external `zookeeper` C-binding module is a collaborator, modelled at its
  interface boundary: its integer constants, the fact that `zookeeper.init`
  returns a fresh handle (modelled by a `gen` counter on `Client`), and the
  fact that calling an operation with a `None` handle or a wrong number of
  arguments raises `TypeError`.
* Python exceptions that a piece of code can raise and that its caller
  catches become explicit alternatives in the return type.
-/

/- Integer constants of the external `zookeeper` transport binding
(collaborator, modelled at its interface boundary; values are those of the
ZooKeeper C client headers - only their distinctness matters to the claims). -/
namespace zookeeper

def SESSION_EVENT : Int := -1

def NOTWATCHING_EVENT : Int := -2

def CREATED_EVENT : Int := 1

def DELETED_EVENT : Int := 2

def CHANGED_EVENT : Int := 3

def CHILD_EVENT : Int := 4

def CONNECTING_STATE : Int := 1

def ASSOCIATING_STATE : Int := 2

def CONNECTED_STATE : Int := 3

def EXPIRED_SESSION_STATE : Int := -112

def AUTH_FAILED_STATE : Int := -113

def OK : Int := 0

def NONODE : Int := -101

def EPHEMERAL : Nat := 1

def SEQUENCE : Nat := 2

end zookeeper

/-- `KazooState` from `client.py`: the high-level connection state values. -/
inductive KazooState where
  | SUSPENDED
  | CONNECTED
  | LOST
deriving DecidableEq, Repr

/- `KeeperState` from `client.py`: aliases of the transport state codes. -/
namespace KeeperState

def ASSOCIATING : Int := zookeeper.ASSOCIATING_STATE

def AUTH_FAILED : Int := zookeeper.AUTH_FAILED_STATE

def CONNECTED : Int := zookeeper.CONNECTED_STATE

def CONNECTING : Int := zookeeper.CONNECTING_STATE

def EXPIRED_SESSION : Int := zookeeper.EXPIRED_SESSION_STATE

end KeeperState

/- `EventType` from `client.py`: aliases of the transport event-type codes. -/
namespace EventType

def NOTWATCHING : Int := zookeeper.NOTWATCHING_EVENT

def SESSION : Int := zookeeper.SESSION_EVENT

def CREATED : Int := zookeeper.CREATED_EVENT

def DELETED : Int := zookeeper.DELETED_EVENT

def CHANGED : Int := zookeeper.CHANGED_EVENT

def CHILD : Int := zookeeper.CHILD_EVENT

end EventType

/-- `WatchedEvent` from `client.py`: the named tuple `(type, state, path)`. -/
structure WatchedEvent where
  type : Int
  state : Int
  path : String
deriving DecidableEq, Repr

/-- A state listener: the behaviour of one function in `state_listeners`.
`raisesOn s` says whether invoking it with new state `s` raises an exception
(caught and logged by `_make_state_change`). -/
structure Listener where
  raisesOn : KazooState → Bool

/-- The four-tuple `(handle, type, state, path)` the transport delivers to a
session callback. -/
structure Event where
  handle : Nat
  type : Int
  state : Int
  path : String
deriving DecidableEq, Repr

/-- Observable side effects of the state machine, in program order:
transport closes (`zookeeper.close`), accepted state changes, listener
invocations (`notifyRaised` records a listener whose invocation raised and
was caught and logged), transport session opens (`zookeeper.init`, recording
the client id passed for session resumption if any), and invocations of the
configured default watcher. -/
inductive Effect where
  | close (handle : Nat)
  | stateChange (s : KazooState)
  | notify (listener : Nat) (s : KazooState)
  | notifyRaised (listener : Nat) (s : KazooState)
  | init (clientId : Option Nat)
  | watcherCall (ev : WatchedEvent)
deriving DecidableEq, Repr

/-- The wait-able object `connect_async` returns: the client's `_live` event
object (an `IHandler` event flag that is set once CONNECTED is reached). -/
inductive WaitHandle where
  | live
deriving DecidableEq, Repr

/-- The mutable state of a `KazooClient` instance: `_handle` (session handle,
`none` when disconnected), the `_live` and `_stopped` event flags, the
high-level `state`, the `state_listeners`, whether a default `_watcher` was
configured, `_provided_client_id`, and `gen`, which models the transport
allocator (`zookeeper.init` returns a fresh, never-reused handle). -/
structure Client where
  handle : Option Nat
  live : Bool
  stopped : Bool
  state : KazooState
  state_listeners : List Listener
  watcher : Bool
  providedClientId : Option Nat
  gen : Nat

/-- Invocation of the listeners in `_make_state_change`'s `for` loop, from
listener index `i` on: each listener is called with the new state; a raising
listener yields a `notifyRaised` (logged) effect instead of `notify`, and the
iteration continues with the remaining listeners. -/
def notifyFrom (i : Nat) (ls : List Listener) (s : KazooState) : List Effect :=
  match ls with
  | [] => []
  | l :: rest =>
    (if l.raisesOn s then Effect.notifyRaised i s else Effect.notify i s)
      :: notifyFrom (i + 1) rest s

/-- `KazooClient._make_state_change`: skip if `state` is current; otherwise
set the new state and invoke every listener with it, catching (and logging)
exceptions per listener. -/
def _make_state_change (c : Client) (s : KazooState) : Client × List Effect :=
  if c.state = s then (c, [])
  else ({ c with state := s },
        Effect.stateChange s :: notifyFrom 0 c.state_listeners s)

/-- `KazooClient._safe_close`: if a handle is tracked, untrack it, close it
(ignoring transport exceptions), clear `_live` and transition to LOST. -/
def _safe_close (c : Client) : Client × List Effect :=
  match c.handle with
  | none => (c, [])
  | some zh =>
    let r := _make_state_change { c with handle := none, live := false }
               KazooState.LOST
    (r.1, Effect.close zh :: r.2)

/-- `KazooClient.connect_async`: if `_live` is set, return immediately (the
Python method returns `None`); otherwise `_safe_close`, clear `_stopped`,
open a new transport session with `zookeeper.init` (passing
`_provided_client_id` when one was supplied at construction; the fresh handle
is modelled by `gen`) and return `self._live` as the wait-able handle. -/
def connect_async (c : Client) : Client × List Effect × Option WaitHandle :=
  if c.live then (c, [], none)
  else
    let r := _safe_close c
    let c2 := { r.1 with stopped := false, handle := some r.1.gen,
                         gen := r.1.gen + 1 }
    (c2, r.2 ++ [Effect.init c.providedClientId], some WaitHandle.live)

/-- `KazooClient._session_callback`: ignore non-session event types; close
and ignore events for a stale handle; ignore events while stopped; otherwise
drive the state machine (CONNECTED sets `_live` and moves to CONNECTED;
EXPIRED_SESSION / AUTH_FAILED clear `_live`, drop the handle, move to LOST
and call `connect_async`; anything else clears `_live` and moves to
SUSPENDED), then invoke the default watcher, if configured, with a
`WatchedEvent` built from the raw event. -/
def _session_callback (c : Client) (ev : Event) : Client × List Effect :=
  if ev.type ≠ EventType.SESSION then (c, [])
  else if c.handle ≠ some ev.handle then (c, [Effect.close ev.handle])
  else if c.stopped then (c, [])
  else
    let r :=
      if ev.state = KeeperState.CONNECTED then
        _make_state_change { c with live := true } KazooState.CONNECTED
      else if ev.state = KeeperState.EXPIRED_SESSION ∨
              ev.state = KeeperState.AUTH_FAILED then
        let r1 := _make_state_change { c with live := false, handle := none }
                    KazooState.LOST
        let r2 := connect_async r1.1
        (r2.1, r1.2 ++ r2.2.1)
      else
        _make_state_change { c with live := false } KazooState.SUSPENDED
    (r.1, r.2 ++ if c.watcher
                 then [Effect.watcherCall ⟨ev.type, ev.state, ev.path⟩]
                 else [])

/-- `KazooClient.stop`: set `_stopped`, then `_safe_close`. -/
def stop (c : Client) : Client × List Effect :=
  _safe_close { c with stopped := true }

/-- Deliver a sequence of transport session events to `_session_callback`,
threading the client state and concatenating the effect traces. -/
def runEvents (c : Client) (evs : List Event) : Client × List Effect :=
  match evs with
  | [] => (c, [])
  | ev :: rest =>
    let r1 := _session_callback c ev
    let r2 := runEvents r1.1 rest
    (r2.1, r1.2 ++ r2.2)

/-- The accepted state changes recorded in an effect trace, in order. -/
def stateChanges (tr : List Effect) : List KazooState :=
  tr.filterMap fun e =>
    match e with
    | Effect.stateChange s => some s
    | _ => none

/-- The `Callback` named tuple of `client.py` as produced by
`_wrap_watch_callback`: kind `"watch"`, the user function (identified by an
opaque id), and the argument tuple, which holds `WatchedEvent` values. -/
structure Callback where
  type : String
  func : Nat
  args : List WatchedEvent
deriving DecidableEq, Repr

/-- `KazooClient._wrap_watch_callback`'s inner `wrapper`, as the function
from the raw four-tuple to the callback record handed to
`self._handler.dispatch_callback` (`none` when nothing is dispatched):
session events are dropped; otherwise a `WatchedEvent` is built and the user
function `func` is scheduled with that event as its single argument. -/
def _wrap_watch_callback (func : Nat) (_handle : Nat) (type : Int)
    (state : Int) (path : String) : Option Callback :=
  if state ≠ zookeeper.SESSION_EVENT then
    some { type := "watch", func := func,
           args := [WatchedEvent.mk type state path] }
  else none

/-- Modelled from the spec: `err_to_exception` lives in `kazoo/exceptions.py`
which is not under `src/`; the spec says status codes are "decoded from
transport status codes into specific error kinds", so the error is modelled
as a tagged wrapper of the status code it is constructed from. -/
structure ZkProtocolError where
  code : Int
deriving DecidableEq, Repr

/-- Modelled from the spec: constructs the protocol error for a non-OK
transport status code (see `ZkProtocolError`). -/
def err_to_exception (code : Int) : ZkProtocolError := ⟨code⟩

/-- `ZnodeStat` from `client.py`: the named tuple of raw stat fields. -/
structure ZnodeStat where
  aversion : Int
  ctime : Int
  cversion : Int
  czxid : Int
  dataLength : Int
  ephemeralOwner : Int
  mtime : Int
  mzxid : Int
  numChildren : Int
  pzxid : Int
  version : Int
deriving DecidableEq, Repr

/-- Resolution of an `AsyncResult` by a completion callback: either
`set stat` (success; the stat the transport delivered, `none` for an absent
node) or `set_exception e`. -/
inductive AROutcome where
  | set (stat : Option ZnodeStat)
  | setException (e : ZkProtocolError)
deriving DecidableEq, Repr

/-- `_exists_callback` from `client.py`: a completion code other than `OK`
or `NONODE` resolves the `AsyncResult` with the error constructed from the
code; `OK` and `NONODE` resolve it successfully with the delivered stat
(which the transport leaves absent for `NONODE`). -/
def _exists_callback (code : Int) (stat : Option ZnodeStat) : AROutcome :=
  if ¬(code = zookeeper.OK ∨ code = zookeeper.NONODE) then
    AROutcome.setException (err_to_exception code)
  else
    AROutcome.set stat

/-- The asynchronous operations of the `zookeeper` binding used by the
facade (collaborator, modelled at its interface boundary). -/
inductive ZkFunc where
  | add_auth
  | acreate
  | aexists
  | aget
  | aget_children
  | aset
  | adelete
deriving DecidableEq, Repr

/-- Number of arguments each binding operation requires after the handle
(per the zkpython C binding signatures); a call with a different count
raises `TypeError`. -/
def bindingArity : ZkFunc → Nat
  | ZkFunc.add_auth => 3
  | ZkFunc.acreate => 5
  | ZkFunc.aexists => 3
  | ZkFunc.aget => 3
  | ZkFunc.aget_children => 3
  | ZkFunc.aset => 4
  | ZkFunc.adelete => 3

/-- Arguments passed to a binding operation after the handle. -/
inductive Arg where
  | str (s : String)
  | num (n : Int)
  | aclList
  | flags (n : Nat)
  | watchCB (present : Bool)
  | completionCB
deriving DecidableEq, Repr

/-- What occupies the `async_result` parameter slot of `_safe_call` at a
given call site: the operation's `AsyncResult`, or (at the buggy
`add_auth_async` call site) the `scheme` string. -/
inductive Sink where
  | asyncResult
  | strVal (s : String)
deriving DecidableEq, Repr

/-- Python exceptions that can escape `_safe_call` to its caller. -/
inductive PyExc where
  | attributeError
deriving DecidableEq, Repr

/-- Outcome of `_safe_call`: the transport call was issued, or the
`AsyncResult` was resolved with a stopped / connection-loss error, or an
exception escaped to the caller (leaving the `AsyncResult` unresolved). -/
inductive SafeCallOutcome where
  | called (f : ZkFunc) (args : List Arg)
  | resolvedStopped
  | resolvedConnectionLoss
  | raised (e : PyExc)
deriving DecidableEq, Repr

/-- `KazooClient._safe_call`: call `func(self._handle, *args)`; the binding
raises `TypeError` when the handle is `None` or the argument count is wrong
for `func`. On `TypeError`, `async_result.set_exception` is called with
`ZookeeperStoppedError` if `_stopped` is set, else `ConnectionLossException`
- but if the object in the `async_result` slot is a string, that attribute
access itself raises `AttributeError`, which propagates. -/
def _safe_call (c : Client) (f : ZkFunc) (sink : Sink) (args : List Arg) :
    SafeCallOutcome :=
  if c.handle.isSome ∧ args.length = bindingArity f then
    SafeCallOutcome.called f args
  else
    match sink with
    | Sink.asyncResult =>
      if c.stopped then SafeCallOutcome.resolvedStopped
      else SafeCallOutcome.resolvedConnectionLoss
    | Sink.strVal _ => SafeCallOutcome.raised PyExc.attributeError

/-- `KazooClient.add_auth_async` as written in `client.py`: it calls
`self._safe_call(zookeeper.add_auth, scheme, credential, callback)`, so the
`async_result` slot of `_safe_call` receives `scheme` and the binding call
becomes `zookeeper.add_auth(handle, credential, callback)` - two arguments
where the binding requires three. -/
def add_auth_async (c : Client) (scheme credential : String) :
    SafeCallOutcome :=
  _safe_call c ZkFunc.add_auth (Sink.strVal scheme)
    [Arg.str credential, Arg.completionCB]

/-- `KazooClient.get_async`: `_safe_call(zookeeper.aget, async_result, path,
watch_callback, callback)`. -/
def get_async (c : Client) (path : String) (watch : Bool) : SafeCallOutcome :=
  _safe_call c ZkFunc.aget Sink.asyncResult
    [Arg.str path, Arg.watchCB watch, Arg.completionCB]

/-- `KazooClient.exists_async`: `_safe_call(zookeeper.aexists, async_result,
path, watch_callback, callback)`. -/
def exists_async (c : Client) (path : String) (watch : Bool) :
    SafeCallOutcome :=
  _safe_call c ZkFunc.aexists Sink.asyncResult
    [Arg.str path, Arg.watchCB watch, Arg.completionCB]

/-- `KazooClient.get_children_async`: `_safe_call(zookeeper.aget_children,
async_result, path, watch_callback, callback)`. -/
def get_children_async (c : Client) (path : String) (watch : Bool) :
    SafeCallOutcome :=
  _safe_call c ZkFunc.aget_children Sink.asyncResult
    [Arg.str path, Arg.watchCB watch, Arg.completionCB]

/-- `KazooClient.create_async`: flags from the ephemeral/sequence booleans,
then `_safe_call(zookeeper.acreate, async_result, path, value, acl, flags,
callback)`. -/
def create_async (c : Client) (path value : String)
    (ephemeral sequence : Bool) : SafeCallOutcome :=
  let fl := (if ephemeral then zookeeper.EPHEMERAL else 0) |||
            (if sequence then zookeeper.SEQUENCE else 0)
  _safe_call c ZkFunc.acreate Sink.asyncResult
    [Arg.str path, Arg.str value, Arg.aclList, Arg.flags fl, Arg.completionCB]

/-- `KazooClient.set_async`: `_safe_call(zookeeper.aset, async_result, path,
data, version, callback)`. -/
def set_async (c : Client) (path data : String) (version : Int) :
    SafeCallOutcome :=
  _safe_call c ZkFunc.aset Sink.asyncResult
    [Arg.str path, Arg.str data, Arg.num version, Arg.completionCB]

/-- `KazooClient.delete_async`: `_safe_call(zookeeper.adelete, async_result,
path, version, callback)`. -/
def delete_async (c : Client) (path : String) (version : Int) :
    SafeCallOutcome :=
  _safe_call c ZkFunc.adelete Sink.asyncResult
    [Arg.str path, Arg.num version, Arg.completionCB]

/-- A listener whose invocation never raises. -/
def okListener : Listener := ⟨fun _ => false⟩

/-- A listener whose invocation always raises. -/
def badListener : Listener := ⟨fun _ => true⟩

/-- A concrete stat record. -/
def stat0 : ZnodeStat := ⟨0, 0, 0, 0, 0, 0, 0, 0, 0, 0, 0⟩

/-- A concrete client in the situation right after `connect_async` on a fresh
client: state LOST, tracking handle 1, not stopped, not live, one listener,
a default watcher configured. -/
def clientA : Client :=
  { handle := some 1, live := false, stopped := false,
    state := KazooState.LOST, state_listeners := [okListener],
    watcher := true, providedClientId := none, gen := 2 }

/-- A concrete connected client with two listeners (the second raising) and
a provided client id for session resumption. -/
def clientB : Client :=
  { handle := some 3, live := true, stopped := false,
    state := KazooState.CONNECTED, state_listeners := [okListener, badListener],
    watcher := false, providedClientId := some 7, gen := 4 }

/-- Whether an effect is a listener notification (successful or raising). -/
def isNotification : Effect → Bool
  | Effect.notify _ _ => true
  | Effect.notifyRaised _ _ => true
  | _ => false

/-- Last element of a list of states, with default `d` for the empty list. -/
def lastStateD (d : KazooState) : List KazooState → KazooState
  | [] => d
  | a :: t => lastStateD a t

/-- A trace `tr` is consistent between an initial state `s` and a final state
`s'` when its accepted state changes never repeat the preceding state and end
at `s'`. -/
def okTrace (s : KazooState) (tr : List Effect) (s' : KazooState) : Prop :=
  List.Chain' (· ≠ ·) (s :: stateChanges tr) ∧
  s' = lastStateD s (stateChanges tr)

/-- What one accepted transition of `_make_state_change c s` does to the
listeners: the listener set is kept, the state becomes `s`, the trace is the
state-change marker followed by one invocation effect per listener in order
(position `i` holding `notifyRaised i s` exactly when listener `i` raises,
`notify i s` otherwise), so a raising listener is logged, kept, and does not
prevent the remaining invocations. -/
def ListenerRoundSpec (c : Client) (s : KazooState) : Prop :=
  (_make_state_change c s).1.state_listeners = c.state_listeners ∧
  (_make_state_change c s).1.state = s ∧
  (_make_state_change c s).2 =
    Effect.stateChange s :: notifyFrom 0 c.state_listeners s ∧
  (notifyFrom 0 c.state_listeners s).length = c.state_listeners.length ∧
  ∀ i, i < c.state_listeners.length →
    (notifyFrom 0 c.state_listeners s).getD i (Effect.stateChange s) =
      if (c.state_listeners.getD i okListener).raisesOn s
      then Effect.notifyRaised i s else Effect.notify i s

/-- What `_session_callback` does on a session event for the current handle
while not stopped, per transport state (the amended transition table:
listener notification happens exactly when the state actually changes). -/
def SessionTransitionSpec (c : Client) (ev : Event) : Prop :=
  (ev.state = KeeperState.CONNECTED →
    (_session_callback c ev).1.live = true ∧
    (_session_callback c ev).1.state = KazooState.CONNECTED) ∧
  ((ev.state = KeeperState.EXPIRED_SESSION ∨
    ev.state = KeeperState.AUTH_FAILED) →
    (_session_callback c ev).1.live = false ∧
    (_session_callback c ev).1.state = KazooState.LOST ∧
    (_session_callback c ev).1.stopped = false ∧
    (_session_callback c ev).1.handle = some c.gen ∧
    (c.gen ≠ ev.handle → (_session_callback c ev).1.handle ≠ some ev.handle) ∧
    Effect.init c.providedClientId ∈ (_session_callback c ev).2 ∧
    stateChanges (_session_callback c ev).2 =
      (if c.state = KazooState.LOST then [] else [KazooState.LOST]) ∧
    (c.state ≠ KazooState.LOST → ∀ i, i < c.state_listeners.length →
      Effect.notify i KazooState.LOST ∈ (_session_callback c ev).2 ∨
      Effect.notifyRaised i KazooState.LOST ∈ (_session_callback c ev).2)) ∧
  (ev.state ≠ KeeperState.CONNECTED → ev.state ≠ KeeperState.EXPIRED_SESSION →
    ev.state ≠ KeeperState.AUTH_FAILED →
    (_session_callback c ev).1.live = false ∧
    (_session_callback c ev).1.state = KazooState.SUSPENDED)

/-- What `connect_async` does when the client is not live: close any stale
handle, clear `_stopped`, open a fresh transport session (passing the
provided client id for resumption), return the `_live` wait-able, which a
subsequent CONNECTED session event for the new handle resolves (sets). -/
def ConnectSpec (c : Client) : Prop :=
  (connect_async c).2.2 = some WaitHandle.live ∧
  (connect_async c).1.stopped = false ∧
  (connect_async c).1.handle = some c.gen ∧
  Effect.init c.providedClientId ∈ (connect_async c).2.1 ∧
  (∀ h, c.handle = some h → Effect.close h ∈ (connect_async c).2.1) ∧
  (c.handle = none → (connect_async c).2.1 = [Effect.init c.providedClientId]) ∧
  (_session_callback (connect_async c).1
      ⟨c.gen, EventType.SESSION, KeeperState.CONNECTED, ""⟩).1.live = true

theorem notifyFrom_length (ls : List Listener) (j : Nat) (s : KazooState) :
    (notifyFrom j ls s).length = ls.length := by
  induction ls generalizing j with
  | nil => rfl
  | cons l rest ih => simp [notifyFrom, ih]

theorem notifyFrom_getD (ls : List Listener) (j i : Nat) (s : KazooState)
    (d : Effect) (dl : Listener) (h : i < ls.length) :
    (notifyFrom j ls s).getD i d =
      if (ls.getD i dl).raisesOn s then Effect.notifyRaised (j + i) s
      else Effect.notify (j + i) s := by
  induction ls generalizing j i with
  | nil => simp at h
  | cons l rest ih =>
    cases i with
    | zero => simp [notifyFrom]
    | succ i =>
      have h' : i < rest.length := by simpa using h
      have e1 : (notifyFrom j (l :: rest) s).getD (i + 1) d
          = (notifyFrom (j + 1) rest s).getD i d := by
        simp only [notifyFrom, List.getD_cons_succ]
      have e2 : (l :: rest).getD (i + 1) dl = rest.getD i dl := by
        simp only [List.getD_cons_succ]
      rw [e1, e2, ih (j + 1) i h']
      have e3 : j + 1 + i = j + (i + 1) := by omega
      rw [e3]

theorem notifyFrom_mem (ls : List Listener) (j i : Nat) (s : KazooState)
    (h : i < ls.length) :
    Effect.notify (j + i) s ∈ notifyFrom j ls s ∨
    Effect.notifyRaised (j + i) s ∈ notifyFrom j ls s := by
  induction ls generalizing j i with
  | nil => simp at h
  | cons l rest ih =>
    cases i with
    | zero =>
      by_cases hr : l.raisesOn s
      · right; simp [notifyFrom, hr]
      · left; simp [notifyFrom, hr]
    | succ i =>
      have h' : i < rest.length := by simpa using h
      have e : j + (i + 1) = j + 1 + i := by omega
      rw [e]
      rcases ih (j + 1) i h' with hm | hm
      · left
        simp only [notifyFrom, List.mem_cons]
        right
        exact hm
      · right
        simp only [notifyFrom, List.mem_cons]
        right
        exact hm

/-- C10: an event whose type is not the session type makes `_session_callback`
return immediately: the client (state, handle, live flag, listeners) is
unchanged and the trace is empty - no listener notification, no stale-handle
close, no default-watcher invocation. -/
theorem c10_non_session_frame (c : Client) (ev : Event)
    (h : ev.type ≠ EventType.SESSION) :
    _session_callback c ev = (c, []) := by
  simp [_session_callback, h]

theorem c10_witness :
    (EventType.CREATED ≠ EventType.SESSION) ∧
    _session_callback clientA
      ⟨1, EventType.CREATED, KeeperState.CONNECTED, "/a"⟩ = (clientA, []) :=
  ⟨by decide,
   c10_non_session_frame clientA
     ⟨1, EventType.CREATED, KeeperState.CONNECTED, "/a"⟩ (by decide)⟩

/-- C2: a session callback whose handle does not equal the tracked handle
closes the stale transport handle and does nothing else: the client record
(connection state, tracked handle, live flag) is unchanged and the trace
holds only the close - no listener is notified. -/
theorem c2_stale_handle_frame (c : Client) (ev : Event)
    (h1 : ev.type = EventType.SESSION) (h2 : c.handle ≠ some ev.handle) :
    _session_callback c ev = (c, [Effect.close ev.handle]) := by
  simp [_session_callback, h1, h2]

theorem c2_witness :
    clientA.handle ≠ some 5 ∧
    _session_callback clientA
      ⟨5, EventType.SESSION, KeeperState.CONNECTED, "/a"⟩
      = (clientA, [Effect.close 5]) :=
  ⟨by decide,
   c2_stale_handle_frame clientA
     ⟨5, EventType.SESSION, KeeperState.CONNECTED, "/a"⟩ rfl (by decide)⟩

/-- C4: the watch-callback wrapper drops any four-tuple whose state equals
the session-event marker (nothing is dispatched), and otherwise schedules
the user's watch function with exactly the single argument
`WatchedEvent(type, state, path)`. -/
theorem c4_watch_wrapper (func handle : Nat) (type state : Int)
    (path : String) :
    (state = zookeeper.SESSION_EVENT →
      _wrap_watch_callback func handle type state path = none) ∧
    (state ≠ zookeeper.SESSION_EVENT →
      _wrap_watch_callback func handle type state path =
        some ⟨"watch", func, [WatchedEvent.mk type state path]⟩) := by
  constructor
  · intro h; simp [_wrap_watch_callback, h]
  · intro h; simp [_wrap_watch_callback, h]

theorem c4_witness :
    _wrap_watch_callback 7 1 EventType.CREATED zookeeper.SESSION_EVENT "/p"
      = none ∧
    _wrap_watch_callback 7 1 EventType.CREATED zookeeper.CONNECTED_STATE "/p"
      = some ⟨"watch", 7,
          [WatchedEvent.mk EventType.CREATED zookeeper.CONNECTED_STATE "/p"]⟩ :=
  ⟨(c4_watch_wrapper 7 1 EventType.CREATED zookeeper.SESSION_EVENT "/p").1 rfl,
   (c4_watch_wrapper 7 1 EventType.CREATED zookeeper.CONNECTED_STATE "/p").2
     (by decide)⟩

/-- C5 (code bug): the claim holds for the template operations (shown here
for `get_async` on a stopped client: the AsyncResult is resolved with the
stopped error and no transport call is made), but `add_auth_async` passes
`scheme` where `_safe_call` expects the AsyncResult and omits the scheme from
the binding call, so after `stop()` (and indeed even while connected) the
attempt raises `AttributeError` and the operation's AsyncResult is never
resolved - contradicting the claim for `add_auth`. -/
theorem c5_add_auth_bug :
    get_async (stop clientB).1 "/a" false = SafeCallOutcome.resolvedStopped ∧
    add_auth_async (stop clientB).1 "digest" "user:pass"
      = SafeCallOutcome.raised PyExc.attributeError ∧
    add_auth_async clientB "digest" "user:pass"
      = SafeCallOutcome.raised PyExc.attributeError := by
  refine ⟨rfl, rfl, rfl⟩

/-- C8: the node-existence completion callback resolves the AsyncResult
successfully with the delivered stat both for OK and for the "node not
found" status (for which the transport delivers an absent stat), and
resolves it with an error constructed from the status for every other
non-OK status. -/
theorem c8_exists_callback (code : Int) (stat : Option ZnodeStat) :
    (code = zookeeper.NONODE → _exists_callback code stat = AROutcome.set stat) ∧
    (code = zookeeper.OK → _exists_callback code stat = AROutcome.set stat) ∧
    (code ≠ zookeeper.OK → code ≠ zookeeper.NONODE →
      _exists_callback code stat =
        AROutcome.setException (err_to_exception code)) := by
  refine ⟨?_, ?_, ?_⟩
  · intro h; simp [_exists_callback, h]
  · intro h; simp [_exists_callback, h]
  · intro h1 h2; simp [_exists_callback, h1, h2]

theorem c8_witness :
    _exists_callback zookeeper.NONODE none = AROutcome.set none ∧
    _exists_callback zookeeper.OK (some stat0) = AROutcome.set (some stat0) ∧
    _exists_callback (-110) none =
      AROutcome.setException (err_to_exception (-110)) :=
  ⟨(c8_exists_callback zookeeper.NONODE none).1 rfl,
   (c8_exists_callback zookeeper.OK (some stat0)).2.1 rfl,
   (c8_exists_callback (-110) none).2.2 (by decide) (by decide)⟩

/-- C9: an accepted state transition keeps the listener set (no listener is
removed), iterates it invoking every listener in order with the new state,
and a listener whose invocation raises only yields a logged `notifyRaised`
effect at its own position - the remaining listeners are still invoked and
nothing propagates to the caller (the transition function returns normally
with the full invocation trace). -/
theorem c9_listener_isolation (c : Client) (s : KazooState)
    (h : c.state ≠ s) : ListenerRoundSpec c s := by
  refine ⟨?_, ?_, ?_, notifyFrom_length _ _ _, ?_⟩
  · simp [_make_state_change, h]
  · simp [_make_state_change, h]
  · simp [_make_state_change, h]
  · intro i hi
    simpa using notifyFrom_getD c.state_listeners 0 i s
      (Effect.stateChange s) okListener hi

theorem c9_witness :
    clientB.state ≠ KazooState.LOST ∧
    ListenerRoundSpec clientB KazooState.LOST :=
  ⟨by decide, c9_listener_isolation clientB KazooState.LOST (by decide)⟩

theorem stateChanges_nil : stateChanges [] = [] := rfl

theorem stateChanges_cons_close (h : Nat) (tr : List Effect) :
    stateChanges (Effect.close h :: tr) = stateChanges tr := rfl

theorem stateChanges_cons_notify (i : Nat) (s : KazooState)
    (tr : List Effect) :
    stateChanges (Effect.notify i s :: tr) = stateChanges tr := rfl

theorem stateChanges_cons_notifyRaised (i : Nat) (s : KazooState)
    (tr : List Effect) :
    stateChanges (Effect.notifyRaised i s :: tr) = stateChanges tr := rfl

theorem stateChanges_cons_init (cid : Option Nat) (tr : List Effect) :
    stateChanges (Effect.init cid :: tr) = stateChanges tr := rfl

theorem stateChanges_cons_watcherCall (we : WatchedEvent) (tr : List Effect) :
    stateChanges (Effect.watcherCall we :: tr) = stateChanges tr := rfl

theorem stateChanges_cons_stateChange (s : KazooState) (tr : List Effect) :
    stateChanges (Effect.stateChange s :: tr) = s :: stateChanges tr := rfl

theorem stateChanges_append (t1 t2 : List Effect) :
    stateChanges (t1 ++ t2) = stateChanges t1 ++ stateChanges t2 := by
  simp [stateChanges, List.filterMap_append]

theorem stateChanges_notifyFrom (ls : List Listener) (j : Nat)
    (s : KazooState) :
    stateChanges (notifyFrom j ls s) = [] := by
  induction ls generalizing j with
  | nil => rfl
  | cons l rest ih =>
    by_cases hr : l.raisesOn s <;>
      simp [notifyFrom, hr, stateChanges_cons_notify,
            stateChanges_cons_notifyRaised, ih (j + 1)]

theorem stateChanges_watchPart (b : Bool) (we : WatchedEvent) :
    stateChanges (if b then [Effect.watcherCall we] else []) = [] := by
  cases b <;> rfl

theorem chain_glue (s1 : KazooState) (l1 l2 : List KazooState)
    (h1 : List.Chain' (· ≠ ·) (s1 :: l1))
    (h2 : List.Chain' (· ≠ ·) (lastStateD s1 l1 :: l2)) :
    List.Chain' (· ≠ ·) (s1 :: (l1 ++ l2)) := by
  induction l1 generalizing s1 with
  | nil => simpa [lastStateD] using h2
  | cons a t ih =>
    have h1' := List.chain'_cons.mp h1
    exact List.chain'_cons.mpr ⟨h1'.1, ih a h1'.2 h2⟩

theorem lastStateD_append (d : KazooState) (l1 l2 : List KazooState) :
    lastStateD d (l1 ++ l2) = lastStateD (lastStateD d l1) l2 := by
  induction l1 generalizing d with
  | nil => rfl
  | cons a t ih => exact ih a

theorem okTrace_append (s1 s2 s3 : KazooState) (t1 t2 : List Effect)
    (h1 : okTrace s1 t1 s2) (h2 : okTrace s2 t2 s3) :
    okTrace s1 (t1 ++ t2) s3 := by
  obtain ⟨hc1, he1⟩ := h1
  obtain ⟨hc2, he2⟩ := h2
  constructor
  · rw [stateChanges_append]
    exact chain_glue s1 _ _ hc1 (he1 ▸ hc2)
  · rw [stateChanges_append, lastStateD_append, ← he1]
    exact he2

theorem okTrace_append_silent (s s' : KazooState) (t1 t2 : List Effect)
    (h2 : stateChanges t2 = []) (h : okTrace s t1 s') :
    okTrace s (t1 ++ t2) s' := by
  unfold okTrace at h ⊢
  rw [stateChanges_append, h2, List.append_nil]
  exact h

theorem okTrace_nil (s : KazooState) : okTrace s [] s := by
  exact ⟨List.chain'_singleton s, rfl⟩

theorem msc_ok (c : Client) (s : KazooState) :
    okTrace c.state (_make_state_change c s).2
      (_make_state_change c s).1.state := by
  by_cases h : c.state = s
  · simpa [_make_state_change, h] using okTrace_nil s
  · unfold okTrace
    simp [_make_state_change, h, stateChanges_cons_stateChange,
          stateChanges_notifyFrom, lastStateD]

theorem safeClose_ok (c : Client) :
    okTrace c.state (_safe_close c).2 (_safe_close c).1.state := by
  cases hh : c.handle with
  | none => simpa [_safe_close, hh] using okTrace_nil c.state
  | some zh =>
    have h := msc_ok { c with handle := none, live := false } KazooState.LOST
    unfold okTrace at h ⊢
    simpa [_safe_close, hh, stateChanges_cons_close] using h

theorem connectAsync_ok (c : Client) :
    okTrace c.state (connect_async c).2.1 (connect_async c).1.state := by
  by_cases h : c.live
  · simpa [connect_async, h] using okTrace_nil c.state
  · have h1 := safeClose_ok c
    unfold okTrace at h1 ⊢
    simpa [connect_async, h, stateChanges_append, stateChanges_cons_init,
           stateChanges_nil] using h1

theorem sessionCallback_ok (c : Client) (ev : Event) :
    okTrace c.state (_session_callback c ev).2
      (_session_callback c ev).1.state := by
  by_cases h1 : ev.type ≠ EventType.SESSION
  · simpa [_session_callback, h1] using okTrace_nil c.state
  · by_cases h2 : c.handle ≠ some ev.handle
    · have := okTrace_nil c.state
      unfold okTrace at this ⊢
      simpa [_session_callback, h1, h2, stateChanges_cons_close] using this
    · by_cases h3 : c.stopped
      · simpa [_session_callback, h1, h2, h3] using okTrace_nil c.state
      · by_cases h4 : ev.state = KeeperState.CONNECTED
        · have hm := msc_ok { c with live := true } KazooState.CONNECTED
          have := okTrace_append_silent _ _ _ _
            (stateChanges_watchPart c.watcher ⟨ev.type, ev.state, ev.path⟩) hm
          simpa [_session_callback, h1, h2, h3, h4] using this
        · by_cases h5 : ev.state = KeeperState.EXPIRED_SESSION ∨
              ev.state = KeeperState.AUTH_FAILED
          · have hm := msc_ok { c with live := false, handle := none }
              KazooState.LOST
            have hc := connectAsync_ok
              (_make_state_change { c with live := false, handle := none }
                KazooState.LOST).1
            have hmc := okTrace_append _ _ _ _ _ hm hc
            have := okTrace_append_silent _ _ _ _
              (stateChanges_watchPart c.watcher ⟨ev.type, ev.state, ev.path⟩)
              hmc
            simpa [_session_callback, h1, h2, h3, h4, h5] using this
          · have hm := msc_ok { c with live := false } KazooState.SUSPENDED
            have := okTrace_append_silent _ _ _ _
              (stateChanges_watchPart c.watcher ⟨ev.type, ev.state, ev.path⟩)
              hm
            simpa [_session_callback, h1, h2, h3, h4, h5] using this

theorem runEvents_ok (c : Client) (evs : List Event) :
    okTrace c.state (runEvents c evs).2 (runEvents c evs).1.state := by
  induction evs generalizing c with
  | nil => simpa [runEvents] using okTrace_nil c.state
  | cons ev rest ih =>
    have h1 := sessionCallback_ok c ev
    have h2 := ih (_session_callback c ev).1
    simpa [runEvents] using okTrace_append _ _ _ _ _ h1 h2

theorem msc_handle (c : Client) (s : KazooState) :
    (_make_state_change c s).1.handle = c.handle := by
  by_cases h : c.state = s <;> simp [_make_state_change, h]

theorem msc_live (c : Client) (s : KazooState) :
    (_make_state_change c s).1.live = c.live := by
  by_cases h : c.state = s <;> simp [_make_state_change, h]

theorem msc_stopped (c : Client) (s : KazooState) :
    (_make_state_change c s).1.stopped = c.stopped := by
  by_cases h : c.state = s <;> simp [_make_state_change, h]

theorem msc_gen (c : Client) (s : KazooState) :
    (_make_state_change c s).1.gen = c.gen := by
  by_cases h : c.state = s <;> simp [_make_state_change, h]

theorem msc_listeners (c : Client) (s : KazooState) :
    (_make_state_change c s).1.state_listeners = c.state_listeners := by
  by_cases h : c.state = s <;> simp [_make_state_change, h]

theorem msc_pcid (c : Client) (s : KazooState) :
    (_make_state_change c s).1.providedClientId = c.providedClientId := by
  by_cases h : c.state = s <;> simp [_make_state_change, h]

theorem msc_state (c : Client) (s : KazooState) :
    (_make_state_change c s).1.state = s ∨
    ((_make_state_change c s).1.state = c.state ∧ c.state = s) := by
  by_cases h : c.state = s <;> simp [_make_state_change, h]

/-- C3: a requested state change equal to the current connection state is a
no-op (client unchanged, no effect at all, so no listener invoked); and over
any sequence of session events delivered to the state machine, the accepted
state changes (each of which is the notification round delivered to every
listener) never repeat the same state twice in a row. -/
theorem c3_no_duplicate_notifications (c : Client) (evs : List Event) :
    _make_state_change c c.state = (c, []) ∧
    List.Chain' (· ≠ ·) (stateChanges (runEvents c evs).2) := by
  constructor
  · simp [_make_state_change]
  · exact ((runEvents_ok c evs).1).tail

/-- C1 counterexample: a client whose state is already LOST (exactly the
situation right after `connect_async` on a fresh or expired client) that
receives an EXPIRED_SESSION session event for its current handle while not
stopped has a listener registered, yet the resulting trace contains no
listener notification at all - `_make_state_change` skips the notification
because the LOST-to-LOST transition is a no-op - contradicting the claim's
unconditional "notifies listeners" for EXPIRED_SESSION. -/
theorem c1_counterexample :
    clientA.state = KazooState.LOST ∧
    clientA.state_listeners.length = 1 ∧
    clientA.stopped = false ∧
    clientA.handle = some 1 ∧
    (_session_callback clientA
        ⟨1, EventType.SESSION, KeeperState.EXPIRED_SESSION, "/"⟩).2.filter
      isNotification = [] ∧
    (_session_callback clientA
        ⟨1, EventType.SESSION, KeeperState.EXPIRED_SESSION, "/"⟩).1.state
      = KazooState.LOST :=
  ⟨rfl, rfl, rfl, rfl, rfl, rfl⟩

/-- C1 (amended): for a session event whose handle matches while not
stopped: CONNECTED sets the live flag and moves the state to CONNECTED;
EXPIRED_SESSION / AUTH_FAILED clear the live flag, drop the old handle,
move the state to LOST, notify the listeners exactly when the state was not
already LOST (a same-state transition is a no-op), and initiate an
asynchronous reconnect (a fresh transport session is opened and its new
handle tracked); every other transport state clears the live flag and moves
the state to SUSPENDED. -/
theorem c1_session_transitions (c : Client) (ev : Event)
    (hT : ev.type = EventType.SESSION)
    (hH : c.handle = some ev.handle)
    (hS : c.stopped = false) :
    SessionTransitionSpec c ev := by
  refine ⟨?_, ?_, ?_⟩
  · intro h4
    by_cases hcs : c.state = KazooState.CONNECTED <;>
      constructor <;>
        simp [_session_callback, hT, hH, hS, h4, _make_state_change, hcs]
  · intro h5
    have hne : ev.state ≠ KeeperState.CONNECTED := by
      rcases h5 with h | h <;> rw [h] <;> decide
    by_cases hcs : c.state = KazooState.LOST
    · refine ⟨?_, ?_, ?_, ?_, ?_, ?_, ?_, ?_⟩
      · simp [_session_callback, hT, hH, hS, hne, h5, connect_async,
              _safe_close, _make_state_change, hcs]
      · simp [_session_callback, hT, hH, hS, hne, h5, connect_async,
              _safe_close, _make_state_change, hcs]
      · simp [_session_callback, hT, hH, hS, hne, h5, connect_async,
              _safe_close, _make_state_change, hcs]
      · simp [_session_callback, hT, hH, hS, hne, h5, connect_async,
              _safe_close, _make_state_change, hcs]
      · intro hg
        simp [_session_callback, hT, hH, hS, hne, h5, connect_async,
              _safe_close, _make_state_change, hcs, hg]
      · simp [_session_callback, hT, hH, hS, hne, h5, connect_async,
              _safe_close, _make_state_change, hcs, List.mem_append]
      · simp [_session_callback, hT, hH, hS, hne, h5, connect_async,
              _safe_close, _make_state_change, hcs, stateChanges_append,
              stateChanges_cons_init, stateChanges_nil, stateChanges_watchPart]
      · intro habs
        exact absurd hcs habs
    · refine ⟨?_, ?_, ?_, ?_, ?_, ?_, ?_, ?_⟩
      · simp [_session_callback, hT, hH, hS, hne, h5, connect_async,
              _safe_close, _make_state_change, hcs]
      · simp [_session_callback, hT, hH, hS, hne, h5, connect_async,
              _safe_close, _make_state_change, hcs]
      · simp [_session_callback, hT, hH, hS, hne, h5, connect_async,
              _safe_close, _make_state_change, hcs]
      · simp [_session_callback, hT, hH, hS, hne, h5, connect_async,
              _safe_close, _make_state_change, hcs]
      · intro hg
        simp [_session_callback, hT, hH, hS, hne, h5, connect_async,
              _safe_close, _make_state_change, hcs, hg]
      · simp [_session_callback, hT, hH, hS, hne, h5, connect_async,
              _safe_close, _make_state_change, hcs, List.mem_append]
      · simp [_session_callback, hT, hH, hS, hne, h5, connect_async,
              _safe_close, _make_state_change, hcs, stateChanges_append,
              stateChanges_cons_init, stateChanges_nil,
              stateChanges_cons_stateChange, stateChanges_notifyFrom,
              stateChanges_watchPart]
      · intro _ i hi
        have hm := notifyFrom_mem c.state_listeners 0 i KazooState.LOST hi
        rcases hm with hm | hm
        · left
          have hm' : Effect.notify i KazooState.LOST ∈
              notifyFrom 0 c.state_listeners KazooState.LOST := by
            simpa using hm
          simp only [_session_callback, hT, hH, hS]
          simp [hne, h5, connect_async, _safe_close, _make_state_change, hcs,
                List.mem_append, hm']
        · right
          have hm' : Effect.notifyRaised i KazooState.LOST ∈
              notifyFrom 0 c.state_listeners KazooState.LOST := by
            simpa using hm
          simp only [_session_callback, hT, hH, hS]
          simp [hne, h5, connect_async, _safe_close, _make_state_change, hcs,
                List.mem_append, hm']
  · intro h4 h5a h5b
    by_cases hcs : c.state = KazooState.SUSPENDED <;>
      constructor <;>
        simp [_session_callback, hT, hH, hS, h4, h5a, h5b,
              _make_state_change, hcs]

theorem c1_witness :
    clientB.handle = some 3 ∧
    clientB.stopped = false ∧
    SessionTransitionSpec clientB
      ⟨3, EventType.SESSION, KeeperState.EXPIRED_SESSION, "/"⟩ :=
  ⟨rfl, rfl,
   c1_session_transitions clientB
     ⟨3, EventType.SESSION, KeeperState.EXPIRED_SESSION, "/"⟩ rfl rfl rfl⟩

theorem watcherCall_not_notifyFrom (we : WatchedEvent) (ls : List Listener)
    (j : Nat) (s : KazooState) :
    Effect.watcherCall we ∉ notifyFrom j ls s := by
  induction ls generalizing j with
  | nil => simp [notifyFrom]
  | cons l rest ih =>
    by_cases hr : l.raisesOn s <;> simp [notifyFrom, hr, ih (j + 1)]

theorem watcherCall_not_msc (we : WatchedEvent) (c : Client)
    (s : KazooState) :
    Effect.watcherCall we ∉ (_make_state_change c s).2 := by
  by_cases h : c.state = s <;>
    simp [_make_state_change, h, watcherCall_not_notifyFrom]

theorem watcherCall_not_safeClose (we : WatchedEvent) (c : Client) :
    Effect.watcherCall we ∉ (_safe_close c).2 := by
  cases hh : c.handle <;>
    simp [_safe_close, hh, watcherCall_not_msc]

theorem watcherCall_not_connect (we : WatchedEvent) (c : Client) :
    Effect.watcherCall we ∉ (connect_async c).2.1 := by
  by_cases h : c.live <;>
    simp [connect_async, h, List.mem_append, watcherCall_not_safeClose]

/-- C6 counterexample: a client constructed with a default watcher receives
a raw event of non-session type (which the state machine filters with an
early return before the watcher invocation line), and the resulting trace is
empty - the configured default watcher is not invoked, contradicting the
claim that it receives every raw event independently of the state machine's
filtering. -/
theorem c6_counterexample :
    clientA.watcher = true ∧
    (_session_callback clientA
        ⟨1, EventType.CREATED, KeeperState.CONNECTED, "/x"⟩).2 = [] :=
  ⟨rfl, rfl⟩

/-- C6 (amended): the configured default watcher receives the raw event
exactly when the state machine's guards pass: it is invoked (after state
processing) for every session-type event with a matching handle while not
stopped, and it is never invoked for an event that fails a guard
(non-session type, stale handle, or stopped), nor when no watcher is
configured. -/
theorem c6_default_watcher_guarded (c : Client) (ev : Event) :
    (ev.type = EventType.SESSION → c.handle = some ev.handle →
      c.stopped = false → c.watcher = true →
      Effect.watcherCall ⟨ev.type, ev.state, ev.path⟩ ∈
        (_session_callback c ev).2) ∧
    (c.watcher = false →
      Effect.watcherCall ⟨ev.type, ev.state, ev.path⟩ ∉
        (_session_callback c ev).2) ∧
    ((ev.type ≠ EventType.SESSION ∨ c.handle ≠ some ev.handle ∨
        c.stopped = true) →
      Effect.watcherCall ⟨ev.type, ev.state, ev.path⟩ ∉
        (_session_callback c ev).2) := by
  refine ⟨?_, ?_, ?_⟩
  · intro hT hH hS hw
    simp [_session_callback, hT, hH, hS, hw, List.mem_append]
  · intro hw
    by_cases h1 : ev.type ≠ EventType.SESSION
    · simp [_session_callback, h1]
    · by_cases h2 : c.handle ≠ some ev.handle
      · simp [_session_callback, h1, h2]
      · by_cases h3 : c.stopped
        · simp [_session_callback, h1, h2, h3]
        · by_cases h4 : ev.state = KeeperState.CONNECTED
          · simp [_session_callback, h1, h2, h3, h4, hw, List.mem_append,
                  watcherCall_not_msc]
          · by_cases h5 : ev.state = KeeperState.EXPIRED_SESSION ∨
                ev.state = KeeperState.AUTH_FAILED
            · simp [_session_callback, h1, h2, h3, h4, h5, hw,
                    List.mem_append, watcherCall_not_msc,
                    watcherCall_not_connect]
            · simp [_session_callback, h1, h2, h3, h4, h5, hw,
                    List.mem_append, watcherCall_not_msc]
  · intro hguard
    rcases hguard with h | h | h
    · simp [_session_callback, h]
    · by_cases h1 : ev.type ≠ EventType.SESSION
      · simp [_session_callback, h1]
      · simp [_session_callback, h1, h]
    · by_cases h1 : ev.type ≠ EventType.SESSION
      · simp [_session_callback, h1]
      · by_cases h2 : c.handle ≠ some ev.handle
        · simp [_session_callback, h1, h2]
        · simp [_session_callback, h1, h2, h]

theorem c6_witness :
    clientA.watcher = true ∧
    Effect.watcherCall ⟨EventType.SESSION, KeeperState.CONNECTED, "/w"⟩ ∈
      (_session_callback clientA
        ⟨1, EventType.SESSION, KeeperState.CONNECTED, "/w"⟩).2 ∧
    Effect.watcherCall ⟨EventType.SESSION, KeeperState.CONNECTED, "/w"⟩ ∉
      (_session_callback clientA
        ⟨9, EventType.SESSION, KeeperState.CONNECTED, "/w"⟩).2 :=
  ⟨rfl,
   (c6_default_watcher_guarded clientA
     ⟨1, EventType.SESSION, KeeperState.CONNECTED, "/w"⟩).1 rfl rfl rfl rfl,
   (c6_default_watcher_guarded clientA
     ⟨9, EventType.SESSION, KeeperState.CONNECTED, "/w"⟩).2.2
     (Or.inr (Or.inl (by decide)))⟩

/-- C7: `connect_async` is idempotent while the live flag is set - it
returns immediately with the client unchanged, an empty trace (no close, no
session open) and no wait-able handle; otherwise it closes any stale tracked
handle, clears the stopped flag, opens a fresh transport session passing the
provided client id for session resumption, tracks the new handle, and
returns the `_live` wait-able, which is resolved (set) once a CONNECTED
session event for the new handle is processed. -/
theorem c7_connect_async (c : Client) :
    (c.live = true → connect_async c = (c, [], none)) ∧
    (c.live = false → ConnectSpec c) := by
  constructor
  · intro h
    simp [connect_async, h]
  · intro h
    have hhandle : (connect_async c).1.handle = some c.gen := by
      cases hh : c.handle <;>
        simp [connect_async, h, _safe_close, hh, msc_gen]
    have hstopped : (connect_async c).1.stopped = false := by
      simp [connect_async, h]
    refine ⟨?_, hstopped, hhandle, ?_, ?_, ?_, ?_⟩
    · simp [connect_async, h]
    · simp [connect_async, h, List.mem_append]
    · intro zh hh
      simp [connect_async, h, _safe_close, hh, List.mem_append]
    · intro hh
      simp [connect_async, h, _safe_close, hh]
    · simp [_session_callback, hhandle, hstopped, _make_state_change]
      split <;> rfl

theorem c7_witness :
    clientB.live = true ∧
    connect_async clientB = (clientB, [], none) ∧
    clientA.live = false ∧
    ConnectSpec clientA :=
  ⟨rfl, (c7_connect_async clientB).1 rfl, rfl,
   (c7_connect_async clientA).2 rfl⟩
